import Mathlib

/-!
Verification of the MD_YX5300 serial MP3 player protocol client declared in
src/blocks/ABlocks_SerialMp3Player/MD_YX5300.h.

Shallow embedding: bytes are Nat values below 256, 16-bit arithmetic is taken
modulo 65536.  The enumerations, protocol constants, inline wrapper methods
and the constructor member-initializer list are translated directly from the
header.  The four private methods (checksum, sendRqst, processResponse and
the receive machinery behind check) are only declared in the header - their
implementation file is not part of the sources - so they are modelled from
the specification, as marked on each definition.
-/

namespace MDYX5300

/-- Status codes, enum status_t (header lines 27-46). -/
def STS_OK : Nat := 0x00

/-- Timeout on response message (library generated status). -/
def STS_TIMEOUT : Nat := 0x01

/-- Wrong version number in return message (library generated status). -/
def STS_VERSION : Nat := 0x02

/-- Device checksum invalid (library generated status). -/
def STS_CHECKSUM : Nat := 0x03

/-- Message acknowledged ok. -/
def STS_ACK_OK : Nat := 0x41

/-- Current volume level status. -/
def STS_VOLUME : Nat := 0x43

/-- Serial message commands, enum cmdSet_t (header lines 695-727). -/
def CMD_NUL : Nat := 0x00

/-- Set the volume to the level specified. -/
def CMD_SET_VOLUME : Nat := 0x06

/-- Set the equalizer to the specified level. -/
def CMD_SET_EQUALIZER : Nat := 0x07

/-- Start of message delimiter character (header line 737). -/
def PKT_SOM : Nat := 0x7e

/-- Version information byte (header line 738). -/
def PKT_VER : Nat := 0xff

/-- Data packet length in bytes, excluding SOM and EOM (header line 739). -/
def PKT_LEN : Nat := 0x06

/-- Command feedback OFF (header line 740). -/
def PKT_FB_OFF : Nat := 0x00

/-- Command feedback ON (header line 741). -/
def PKT_FB_ON : Nat := 0x01

/-- Packet data place marker (header line 742). -/
def PKT_DATA_NUL : Nat := 0x00

/-- End of message delimiter character (header line 743). -/
def PKT_EOM : Nat := 0xef

/-- Maximum allowed volume setting, MAX_VOLUME (header line 692). -/
def MAX_VOLUME : Nat := 30

/-- volumeMax() (header line 511): returns MAX_VOLUME. -/
def volumeMax : Nat := MAX_VOLUME

/-- Status return structure cbData (header lines 72-76): a status code and a
16-bit data value. The code field is a byte cast to status_t by the receiver,
so it is kept as a Nat. -/
structure cbData where
  code : Nat
  data : Nat
deriving DecidableEq

/-- Modelled from the spec: the private method checksum (declared at header
line 762, implementation not under src) - the 16-bit value computed as the
two's-complement of the sum of the payload bytes. -/
def checksum (data : List Nat) : Nat :=
  (65536 - data.sum % 65536) % 65536

/-- Modelled from the spec: the 10-byte wire frame, fixed field order
0x7E, 0xFF, 0x06, CMD, FEEDBACK, DATA_HI, DATA_LO, CHK_HI, CHK_LO, 0xEF,
with the checksum computed over the six payload bytes between the markers. -/
def mkFrame (cmd fb dh dl : Nat) : List Nat :=
  let payload : List Nat := [PKT_VER, PKT_LEN, cmd, fb, dh, dl]
  let chk : Nat := checksum payload
  PKT_SOM :: payload ++ [chk / 256, chk % 256, PKT_EOM]

/-- Modelled from the spec: processResponse (declared at header line 764,
implementation not under src) decodes a complete 10-byte frame.  It recomputes
the checksum over the six payload bytes and compares it with the two
transmitted checksum bytes; on a match the status is the device payload (code
from the command byte, data from the two data bytes), on a mismatch it
synthesizes a library-generated STS_CHECKSUM result instead of the device
payload. -/
def processResponse (frame : List Nat) : cbData :=
  let payload : List Nat := (frame.drop 1).take 6
  let chkRcv : Nat := frame.getD 7 0 * 256 + frame.getD 8 0
  if checksum payload = chkRcv then
    { code := frame.getD 3 0, data := frame.getD 5 0 * 256 + frame.getD 6 0 }
  else
    { code := STS_CHECKSUM, data := 0 }

/-- Modelled from the spec: the library-generated result synthesized by
processResponse when timeoutMs elapses after a send with no complete
response. -/
def timeoutResult : cbData :=
  { code := STS_TIMEOUT, data := 0 }

/-- Modelled from the spec: one byte of the receive state machine inside
check (declared at header line 137, implementation not under src), advancing
over the fixed frame shape using the buffer _bufRx (header line 756).  A wrong
start marker or a wrong version byte discards the partial frame byte-by-byte
(the offending byte is itself re-examined as a possible new frame start), and
the tenth byte must be the end-of-message marker for the frame to complete and
be handed to processResponse. -/
def checkStep (buf : List Nat) (b : Nat) : List Nat × Option cbData :=
  if buf.length = 0 then
    if b = PKT_SOM then ([b], none) else ([], none)
  else if buf.length = 1 then
    if b = PKT_VER then (buf ++ [b], none)
    else if b = PKT_SOM then ([b], none)
    else ([], none)
  else if buf.length = 9 then
    if b = PKT_EOM then ([], some (processResponse (buf ++ [b])))
    else if b = PKT_SOM then ([b], none)
    else ([], none)
  else (buf ++ [b], none)

/-- Modelled from the spec: repeated calls to check over an incoming byte
stream, threading the receive buffer and collecting every decoded status
result in order. -/
def checkRun : List Nat → List Nat → List Nat × List cbData
  | [], buf => (buf, [])
  | b :: rest, buf =>
    let step := checkStep buf b
    let r := checkRun rest step.1
    (r.1, step.2.toList ++ r.2)

/-- Modelled from the spec: the status a synchronous sendRqst observes.  The
argument rx is the byte sequence arriving on the channel within timeoutMs of
the send; the first complete frame decoded from it is the response, and if no
frame completes the timeout result is synthesized. -/
def syncResponse (rx : List Nat) : cbData :=
  match (checkRun rx []).2 with
  | [] => timeoutResult
  | r :: _ => r

/-- Outcome of one sendRqst call: the frame written to the channel, the
boolean return value, and the status recorded for the caller (none in
asynchronous mode, where the result is retrieved later). -/
structure RqstOutcome where
  txFrame : List Nat
  returned : Bool
  status : Option cbData
deriving DecidableEq

/-- Modelled from the spec: sendRqst (declared at header line 763,
implementation not under src) encodes the request into a frame with the
feedback byte fixed to PKT_FB_ON, writes it, and in synchronous mode blocks
polling the channel until a complete response arrives or timeoutMs elapses
(time is abstracted: rx holds exactly the bytes arriving within the window),
returning true iff the response is a well-formed acknowledgment; in
asynchronous mode it returns true immediately after the write. -/
def sendRqst (synch : Bool) (cmd data1 data2 : Nat) (rx : List Nat) : RqstOutcome :=
  { txFrame := mkFrame cmd PKT_FB_ON data1 data2,
    returned := if synch then (syncResponse rx).code == STS_ACK_OK else true,
    status := if synch then some (syncResponse rx) else none }

/-- volume(vol) (header line 500): clamps the requested volume to volumeMax()
and sends CMD_SET_VOLUME with it as the low data byte. -/
def volume (synch : Bool) (vol : Nat) (rx : List Nat) : RqstOutcome :=
  sendRqst synch CMD_SET_VOLUME PKT_DATA_NUL (if vol > volumeMax then volumeMax else vol) rx

/-- equalizer(eqId) (header line 269): sends CMD_SET_EQUALIZER with the
requested equalizer id if it is at most 5, and 0 otherwise. -/
def equalizer (synch : Bool) (eqId : Nat) (rx : List Nat) : RqstOutcome :=
  sendRqst synch CMD_SET_EQUALIZER PKT_DATA_NUL (if eqId ≤ 5 then eqId else 0) rx

/-- The client configuration state set by the constructor (header lines
90-95): response timeout, synchronous mode flag and the optional status
callback (nullptr mapped to none). -/
structure ClientState where
  _timeout : Nat
  _synch : Bool
  _cbStatus : Option (cbData → Unit)

/-- The constructor MD_YX5300(pinRx, pinTx) (header lines 90-95): its
member-initializer list sets _timeout(1000), _synch(true),
_cbStatus(nullptr).  The pin arguments only configure SoftwareSerial and do
not affect this state. -/
def mkMD_YX5300 : ClientState :=
  { _timeout := 1000, _synch := true, _cbStatus := none }

/-- The concrete acknowledgment byte sequence of the specification example:
7E FF 06 41 00 00 00 followed by the matching checksum bytes and EF. -/
def ackExample : List Nat :=
  [0x7e, 0xff, 0x06, 0x41, 0x00, 0x00, 0x00, 0xfe, 0xba, 0xef]

theorem checkRun_append (xs ys buf : List Nat) :
    checkRun (xs ++ ys) buf =
      ((checkRun ys (checkRun xs buf).1).1,
        (checkRun xs buf).2 ++ (checkRun ys (checkRun xs buf).1).2) := by
  induction xs generalizing buf with
  | nil => simp [checkRun]
  | cons b rest ih => simp [checkRun, ih]

theorem processResponse_mkFrame (cmd fb dh dl : Nat) :
    processResponse (mkFrame cmd fb dh dl) = { code := cmd, data := dh * 256 + dl } := by
  simp [mkFrame, processResponse, Nat.div_add_mod']

theorem checkRun_mkFrame (cmd fb dh dl : Nat) :
    checkRun (mkFrame cmd fb dh dl) [] = ([], [{ code := cmd, data := dh * 256 + dl }]) := by
  simp [mkFrame, checkRun, checkStep, processResponse,
    PKT_SOM, PKT_VER, PKT_LEN, PKT_EOM, Nat.div_add_mod']

/-- C10: Immediately after construction of a client instance, the response
timeout is 1000 milliseconds, synchronous mode is enabled, and the status
callback is unset. -/
theorem c10_constructor_defaults :
    mkMD_YX5300._timeout = 1000 ∧ mkMD_YX5300._synch = true ∧
      mkMD_YX5300._cbStatus = none :=
  ⟨rfl, rfl, rfl⟩

/-- C2: Every request frame written by sendRqst is exactly the 10 bytes
0x7E, 0xFF, 0x06, command, feedback, data-high, data-low, checksum-high,
checksum-low, 0xEF in that order, and the feedback byte is always 1. -/
theorem c2_frame_layout (synch : Bool) (cmd d1 d2 : Nat) (rx : List Nat) :
    (sendRqst synch cmd d1 d2 rx).txFrame =
      [0x7e, 0xff, 0x06, cmd, 0x01, d1, d2,
        checksum [0xff, 0x06, cmd, 0x01, d1, d2] / 256,
        checksum [0xff, 0x06, cmd, 0x01, d1, d2] % 256, 0xef] ∧
    (sendRqst synch cmd d1 d2 rx).txFrame.length = 10 ∧
    (sendRqst synch cmd d1 d2 rx).txFrame.getD 4 0 = PKT_FB_ON :=
  ⟨rfl, rfl, rfl⟩

/-- C1: The checksum is the 16-bit two's-complement (additive inverse modulo
2^16) of the sum of the payload bytes - markers and checksum field excluded -
and a received frame is accepted as checksum-valid, decoding to the device
payload, iff the recomputed checksum matches the two transmitted checksum
bytes. -/
theorem c1_checksum_twos_complement (p : List Nat) (ver len cmd fb dh dl cH cL : Nat) :
    (checksum p + p.sum) % 65536 = 0 ∧ checksum p < 65536 ∧
    processResponse [0x7e, ver, len, cmd, fb, dh, dl, cH, cL, 0xef] =
      (if checksum [ver, len, cmd, fb, dh, dl] = cH * 256 + cL then
        { code := cmd, data := dh * 256 + dl }
      else { code := STS_CHECKSUM, data := 0 }) := by
  refine ⟨?_, ?_, ?_⟩
  · unfold checksum
    omega
  · unfold checksum
    omega
  · rfl

/-- C3: In synchronous mode sendRqst returns true iff a well-formed
acknowledgment frame arrives within the timeout window; in asynchronous mode
it returns true immediately after the write.  The concrete set-volume example
followed by the ack byte sequence returns true and records STS_ACK_OK. -/
theorem c3_sync_semantics :
    (∀ (cmd d1 d2 : Nat) (rx : List Nat), (sendRqst false cmd d1 d2 rx).returned = true) ∧
    (∀ (cmd d1 d2 : Nat) (rx : List Nat),
      (sendRqst true cmd d1 d2 rx).returned = true ↔
        ∃ r : cbData, (checkRun rx []).2.head? = some r ∧ r.code = STS_ACK_OK) ∧
    (sendRqst true CMD_SET_VOLUME 0x00 15 ackExample).returned = true ∧
    (sendRqst true CMD_SET_VOLUME 0x00 15 ackExample).status =
      some { code := STS_ACK_OK, data := 0 } := by
  refine ⟨fun cmd d1 d2 rx => rfl, fun cmd d1 d2 rx => ?_, by decide, by decide⟩
  rcases h : (checkRun rx []).2 with _ | ⟨r, t⟩ <;>
    simp [sendRqst, syncResponse, h, timeoutResult, STS_TIMEOUT, STS_ACK_OK]

/-- C4: A complete frame whose recomputed checksum mismatches the transmitted
checksum bytes yields the library-generated STS_CHECKSUM instead of the
device payload; an elapsed timeout yields STS_TIMEOUT; and every result the
decoder ever produces is either the device payload code or such a
library-generated status code - errors surface only as status codes. -/
theorem c4_error_codes (f : List Nat)
    (h : checksum ((f.drop 1).take 6) ≠ f.getD 7 0 * 256 + f.getD 8 0) :
    (processResponse f).code = STS_CHECKSUM ∧
    timeoutResult.code = STS_TIMEOUT ∧
    (∀ g : List Nat,
      (processResponse g).code = g.getD 3 0 ∨ (processResponse g).code = STS_CHECKSUM) := by
  refine ⟨?_, rfl, ?_⟩
  · simp only [processResponse]
    rw [if_neg h]
  · intro g
    simp only [processResponse]
    split
    · exact Or.inl rfl
    · exact Or.inr rfl

/-- Witness for C4 at a concrete frame whose transmitted checksum bytes are
both zero instead of the correct value. -/
theorem c4_error_codes_witness :
    (processResponse [0x7e, 0xff, 0x06, 0x41, 0x00, 0x00, 0x00, 0x00, 0x00, 0xef]).code
      = STS_CHECKSUM :=
  (c4_error_codes [0x7e, 0xff, 0x06, 0x41, 0x00, 0x00, 0x00, 0x00, 0x00, 0xef]
    (by decide)).1

/-- C5: Garbage bytes that leave no partial-frame state are discarded
byte-by-byte - a non start-marker byte is dropped in the empty state, and a
wrong version byte after a start marker resets the buffer - and a stream of
such garbage followed by exactly one valid frame decodes exactly one status
result, namely that of the frame. -/
theorem c5_resync (g : List Nat) (cmd fb dh dl : Nat)
    (hg : checkRun g [] = ([], [])) :
    checkRun (g ++ mkFrame cmd fb dh dl) [] =
      ([], [{ code := cmd, data := dh * 256 + dl }]) ∧
    (∀ b : Nat, b ≠ PKT_SOM → checkStep [] b = ([], none)) ∧
    (∀ b : Nat, b ≠ PKT_VER → b ≠ PKT_SOM → checkStep [PKT_SOM] b = ([], none)) := by
  refine ⟨?_, ?_, ?_⟩
  · rw [checkRun_append, hg]
    simp [checkRun_mkFrame]
  · intro b hb
    simp [checkStep, hb]
  · intro b h1 h2
    simp [checkStep, h1, h2]

/-- Witness for C5: garbage consisting of a wrong start byte and a start
marker followed by a wrong version byte, then one valid status frame. -/
theorem c5_resync_witness :
    checkRun ([0x12, 0x7e, 0x00] ++ mkFrame 0x43 0x00 0x00 0x0f) [] =
      ([], [{ code := 0x43, data := 15 }]) :=
  (c5_resync [0x12, 0x7e, 0x00] 0x43 0x00 0x00 0x0f (by decide)).1

/-- C6: Decoding the frame encoded by sendRqst through the response path
reproduces the original command and both data bytes exactly. -/
theorem c6_roundtrip (synch : Bool) (rx : List Nat) (cmd d1 d2 : Nat)
    (h1 : d1 < 256) (h2 : d2 < 256) :
    checkRun (sendRqst synch cmd d1 d2 rx).txFrame [] =
      ([], [{ code := cmd, data := d1 * 256 + d2 }]) ∧
    (processResponse (sendRqst synch cmd d1 d2 rx).txFrame).code = cmd ∧
    (processResponse (sendRqst synch cmd d1 d2 rx).txFrame).data / 256 = d1 ∧
    (processResponse (sendRqst synch cmd d1 d2 rx).txFrame).data % 256 = d2 := by
  have htx : (sendRqst synch cmd d1 d2 rx).txFrame = mkFrame cmd PKT_FB_ON d1 d2 := rfl
  rw [htx, processResponse_mkFrame, checkRun_mkFrame]
  refine ⟨rfl, rfl, ?_, ?_⟩ <;> simp <;> omega

/-- Witness for C6 at the concrete set-volume request. -/
theorem c6_roundtrip_witness :
    checkRun (sendRqst true 0x06 0x00 0x0f []).txFrame [] =
      ([], [{ code := 0x06, data := 15 }]) ∧
    (processResponse (sendRqst true 0x06 0x00 0x0f []).txFrame).code = 0x06 :=
  ⟨(c6_roundtrip true [] 0x06 0x00 0x0f (by decide) (by decide)).1,
    (c6_roundtrip true [] 0x06 0x00 0x0f (by decide) (by decide)).2.1⟩

/-- C7: Corrupting any single payload byte to a different value after the
checksum was computed makes the receive-side verification fail: the decoder
reports STS_CHECKSUM instead of accepting the frame. -/
theorem c7_corruption_detected (u0 u1 u2 u3 u4 u5 v0 v1 v2 v3 v4 v5 : Nat)
    (hu0 : u0 < 256) (hu1 : u1 < 256) (hu2 : u2 < 256) (hu3 : u3 < 256)
    (hu4 : u4 < 256) (hu5 : u5 < 256)
    (hv0 : v0 < 256) (hv1 : v1 < 256) (hv2 : v2 < 256) (hv3 : v3 < 256)
    (hv4 : v4 < 256) (hv5 : v5 < 256)
    (hone :
      (v0 ≠ u0 ∧ v1 = u1 ∧ v2 = u2 ∧ v3 = u3 ∧ v4 = u4 ∧ v5 = u5) ∨
      (v0 = u0 ∧ v1 ≠ u1 ∧ v2 = u2 ∧ v3 = u3 ∧ v4 = u4 ∧ v5 = u5) ∨
      (v0 = u0 ∧ v1 = u1 ∧ v2 ≠ u2 ∧ v3 = u3 ∧ v4 = u4 ∧ v5 = u5) ∨
      (v0 = u0 ∧ v1 = u1 ∧ v2 = u2 ∧ v3 ≠ u3 ∧ v4 = u4 ∧ v5 = u5) ∨
      (v0 = u0 ∧ v1 = u1 ∧ v2 = u2 ∧ v3 = u3 ∧ v4 ≠ u4 ∧ v5 = u5) ∨
      (v0 = u0 ∧ v1 = u1 ∧ v2 = u2 ∧ v3 = u3 ∧ v4 = u4 ∧ v5 ≠ u5)) :
    (processResponse (PKT_SOM :: [v0, v1, v2, v3, v4, v5] ++
        [checksum [u0, u1, u2, u3, u4, u5] / 256,
          checksum [u0, u1, u2, u3, u4, u5] % 256, PKT_EOM])).code
      = STS_CHECKSUM := by
  have hne : checksum [v0, v1, v2, v3, v4, v5] ≠ checksum [u0, u1, u2, u3, u4, u5] := by
    simp only [checksum, List.sum_cons, List.sum_nil]
    omega
  simp [processResponse, Nat.div_add_mod', hne]

/-- Witness for C7: the low data byte of an acknowledgment payload corrupted
from 0 to 1. -/
theorem c7_corruption_detected_witness :
    (processResponse (PKT_SOM :: [0xff, 0x06, 0x41, 0x00, 0x00, 0x01] ++
        [checksum [0xff, 0x06, 0x41, 0x00, 0x00, 0x00] / 256,
          checksum [0xff, 0x06, 0x41, 0x00, 0x00, 0x00] % 256, PKT_EOM])).code
      = STS_CHECKSUM :=
  c7_corruption_detected 0xff 0x06 0x41 0x00 0x00 0x00 0xff 0x06 0x41 0x00 0x00 0x01
    (by decide) (by decide) (by decide) (by decide) (by decide) (by decide)
    (by decide) (by decide) (by decide) (by decide) (by decide) (by decide)
    (by decide)

/-- C8: volume(v) encodes CMD_SET_VOLUME with data byte min(v, 30) - values
above the maximum volume 30 are clamped, so volume(40) sends 30, and values
at or below 30 pass through unchanged. -/
theorem c8_volume_clamp (synch : Bool) (vol : Nat) (rx : List Nat) :
    (volume synch vol rx).txFrame.getD 3 0 = CMD_SET_VOLUME ∧
    (volume synch vol rx).txFrame.getD 6 0 = min vol 30 ∧
    (volume synch 40 rx).txFrame.getD 6 0 = 30 := by
  refine ⟨rfl, ?_, rfl⟩
  have hmin : (if vol > volumeMax then volumeMax else vol) = min vol 30 := by
    simp only [volumeMax, MAX_VOLUME]
    split <;> omega
  calc (volume synch vol rx).txFrame.getD 6 0
      = (if vol > volumeMax then volumeMax else vol) := rfl
    _ = min vol 30 := hmin

/-- C9: equalizer(eqId) encodes CMD_SET_EQUALIZER with data byte eqId when
eqId is at most 5 and with data byte 0 when it exceeds 5. -/
theorem c9_equalizer_fallback (synch : Bool) (e : Nat) (rx : List Nat) :
    (equalizer synch e rx).txFrame.getD 3 0 = CMD_SET_EQUALIZER ∧
    (equalizer synch e rx).txFrame.getD 6 0 = (if e ≤ 5 then e else 0) ∧
    (equalizer synch 6 rx).txFrame.getD 6 0 = 0 ∧
    (equalizer synch 3 rx).txFrame.getD 6 0 = 3 :=
  ⟨rfl, rfl, rfl, rfl⟩

end MDYX5300
